import Mathlib

/-!
Verification of the city-dashboard application in src/app.py.

The program keeps three reactive variables (all_countries, selected_country,
data_df), two data-loading effects (load_country_list, run once at startup;
load_filtered_data, re-run whenever selected_country changes) that issue SQL
queries against a remote CSV of city records, and a Page component that renders
the current state.  We embed:

- the dataset as a list of CityRecord;
- the two SQL queries (SELECT DISTINCT country ... ORDER BY country, and
  SELECT ... WHERE country = c ORDER BY population DESC LIMIT 10) as the
  functions listCountries and topCitiesFor on that list;
- the two effects as state-transition functions on AppState, parameterised by
  the outcome of the query (an Except value: ok with the dataset read, or
  error for a raised exception);
- the rendering logic of Page as a pure function AppState -> Rendered;
- an interleaved small-step system (SysState, Ev, step, run) in which each
  run of the load_filtered_data effect is split into its read phase (line 56
  of app.py, capturing selected_country) and its commit phase (lines 74-80,
  writing data_df), so that claims about racing stage-B runs can be stated.
-/

/-- A row of the cities CSV: the five columns selected by the queries in
app.py (name, country, population, latitude, longitude).  Coordinates are
carried as integers; no logic in the program computes with them. -/
structure CityRecord where
  name : String
  country : String
  population : Nat
  latitude : Int
  longitude : Int
deriving DecidableEq

/-- Ordering used by ORDER BY population DESC: a precedes b when a's
population is at least b's. -/
def popGE (a b : CityRecord) : Prop := b.population ≤ a.population

instance : DecidableRel popGE :=
  fun a b => inferInstanceAs (Decidable (b.population ≤ a.population))

instance : IsTrans CityRecord popGE :=
  ⟨fun _ _ _ h1 h2 => le_trans h2 h1⟩

instance : IsTotal CityRecord popGE :=
  ⟨fun a b => le_total b.population a.population⟩

/-- Lexicographic less-or-equal on character lists, comparing characters by
code point; the order ORDER BY uses on varchar columns. -/
def lexLeB : List Char → List Char → Bool
  | [], _ => true
  | _ :: _, [] => false
  | a :: as, b :: bs =>
    if a.toNat < b.toNat then true
    else if b.toNat < a.toNat then false
    else lexLeB as bs

/-- Lexicographic less-or-equal on strings. -/
def strLe (a b : String) : Prop := lexLeB a.data b.data = true

instance : DecidableRel strLe :=
  fun a b => inferInstanceAs (Decidable (lexLeB a.data b.data = true))

theorem lexLeB_cons (a b : Char) (as bs : List Char) :
    lexLeB (a :: as) (b :: bs) = true ↔
      a.toNat < b.toNat ∨ (a.toNat = b.toNat ∧ lexLeB as bs = true) := by
  simp only [lexLeB]
  by_cases h1 : a.toNat < b.toNat
  · simp [h1]
  · by_cases h2 : b.toNat < a.toNat
    · have hne : a.toNat ≠ b.toNat := by omega
      simp [h1, h2, hne]
    · have heq : a.toNat = b.toNat := by omega
      simp [h1, h2, heq]

theorem lexLeB_total : ∀ as bs : List Char, lexLeB as bs = true ∨ lexLeB bs as = true := by
  intro as
  induction as with
  | nil => intro bs; left; rfl
  | cons a as ih =>
    intro bs
    cases bs with
    | nil => right; rfl
    | cons b bs =>
      rcases Nat.lt_trichotomy a.toNat b.toNat with h | h | h
      · left; exact (lexLeB_cons a b as bs).mpr (Or.inl h)
      · rcases ih bs with h2 | h2
        · left; exact (lexLeB_cons a b as bs).mpr (Or.inr ⟨h, h2⟩)
        · right; exact (lexLeB_cons b a bs as).mpr (Or.inr ⟨h.symm, h2⟩)
      · right; exact (lexLeB_cons b a bs as).mpr (Or.inl h)

theorem lexLeB_trans : ∀ as bs cs : List Char,
    lexLeB as bs = true → lexLeB bs cs = true → lexLeB as cs = true := by
  intro as
  induction as with
  | nil => intro bs cs _ _; rfl
  | cons a as ih =>
    intro bs cs h1 h2
    cases bs with
    | nil => simp [lexLeB] at h1
    | cons b bs =>
      cases cs with
      | nil => simp [lexLeB] at h2
      | cons c cs =>
        rcases (lexLeB_cons a b as bs).mp h1 with hab | ⟨hab, h1t⟩ <;>
          rcases (lexLeB_cons b c bs cs).mp h2 with hbc | ⟨hbc, h2t⟩
        · exact (lexLeB_cons a c as cs).mpr (Or.inl (Nat.lt_trans hab hbc))
        · exact (lexLeB_cons a c as cs).mpr (Or.inl (hbc ▸ hab))
        · exact (lexLeB_cons a c as cs).mpr (Or.inl (hab ▸ hbc))
        · exact (lexLeB_cons a c as cs).mpr (Or.inr ⟨hab.trans hbc, ih bs cs h1t h2t⟩)

instance : IsTotal String strLe := ⟨fun a b => lexLeB_total a.data b.data⟩

instance : IsTrans String strLe := ⟨fun a b c => lexLeB_trans a.data b.data c.data⟩

/-- Semantics of the stage-A query (app.py lines 34-38):
SELECT DISTINCT country FROM csv ORDER BY country.
Each distinct country value of the dataset, in ascending lexicographic
order. -/
def listCountries (ds : List CityRecord) : List String :=
  List.insertionSort strLe ((ds.map (fun r => r.country)).dedup)

/-- Semantics of the stage-B query (app.py lines 66-72):
SELECT name, country, population, latitude, longitude FROM csv
WHERE country = c ORDER BY population DESC LIMIT limit.
The rows whose country equals c, sorted by population descending, truncated
to limit rows (the program always uses limit = 10). -/
def topCitiesFor (ds : List CityRecord) (c : String) (limit : Nat) : List CityRecord :=
  (List.insertionSort popGE (ds.filter (fun r => decide (r.country = c)))).take limit

/-- The three reactive variables of app.py lines 14-18. -/
structure AppState where
  all_countries : List String
  selected_country : String
  data_df : List CityRecord
deriving DecidableEq

/-- Initial reactive state (app.py lines 14-18): empty list, empty string,
empty data frame. -/
def initState : AppState :=
  { all_countries := [], selected_country := "", data_df := [] }

/-- Outcome of a query attempt: ok ds means the connection succeeded and the
dataset read was ds; error models a raised exception. -/
abbrev QueryOutcome := Except Unit (List CityRecord)

/-- Embedding of load_country_list (app.py lines 25-50).  On an exception the
handler only prints, so the state is unchanged.  On success the country list
is published to all_countries, then selected_country is set to USA when the
list contains USA, else to the first list element when the list is non-empty,
else left alone. -/
def load_country_list (res : QueryOutcome) (a : AppState) : AppState :=
  match res with
  | .error _ => a
  | .ok ds =>
    let country_list := listCountries ds
    let a1 : AppState := { a with all_countries := country_list }
    if "USA" ∈ country_list then { a1 with selected_country := "USA" }
    else if country_list ≠ [] then { a1 with selected_country := country_list.headD "" }
    else a1

/-- Embedding of one serialized run of load_filtered_data (app.py lines
53-80).  The captured country name is read from the current state (line 56);
an empty name short-circuits (lines 57-58); on success data_df is set to the
query result (lines 74-75); on an exception data_df is reset to empty (lines
78-80).  The function is total: exceptions never propagate. -/
def load_filtered_data (res : QueryOutcome) (a : AppState) : AppState :=
  let country_name := a.selected_country
  if country_name = "" then a
  else
    match res with
    | .ok ds => { a with data_df := topCitiesFor ds country_name 10 }
    | .error _ => { a with data_df := [] }

/-- What the body of the Page component shows below the selector (app.py
lines 142-175): the full dashboard (map, table, bar chart over data_df) when
a country is selected and data_df is non-empty; the loading indicator for the
selected country when data_df is empty; the waiting-for-country-list
indicator when no country is selected. -/
inductive Body where
  | dashboard (c : String) (df : List CityRecord)
  | loadingData (c : String)
  | waitingCountryList
deriving DecidableEq

/-- The rendered page: the Select control bound to all_countries and
selected_country (app.py lines 135-139) plus the body. -/
structure Rendered where
  selectorOptions : List String
  selectorValue : String
  body : Body
deriving DecidableEq

/-- Embedding of the Page component (app.py lines 128-175) as a pure function
of the reactive state. -/
def Page (s : AppState) : Rendered :=
  { selectorOptions := s.all_countries
    selectorValue := s.selected_country
    body :=
      if s.selected_country ≠ "" ∧ s.data_df ≠ [] then
        Body.dashboard s.selected_country s.data_df
      else if s.selected_country ≠ "" then
        Body.loadingData s.selected_country
      else
        Body.waitingCountryList }

/-- System state for the interleaved model of stage B: the reactive variables
plus the country names captured by stage-B runs whose query is still in
flight. -/
structure SysState where
  app : AppState
  pending : List String
deriving DecidableEq

/-- Initial system state: initial reactive state, no query in flight. -/
def initSys : SysState := { app := initState, pending := [] }

/-- Commit phase of a stage-B run (app.py lines 74-80) for the country name
captured at its start: on success data_df is set to the query result for the
captured name; on an exception data_df is reset to empty.  The captured name
is used, not the current selected_country: the code performs no staleness
check before data_df.set. -/
def commitB (res : QueryOutcome) (captured : String) (a : AppState) : AppState :=
  match res with
  | .ok ds => { a with data_df := topCitiesFor ds captured 10 }
  | .error _ => { a with data_df := [] }

/-- Events of the interleaved model: a user write to selected_country through
the Select control; the start of a stage-B run (capturing the current
selected_country, or doing nothing when it is empty, per lines 56-58); the
completion of the i-th in-flight query with outcome res, which commits. -/
inductive Ev where
  | select (c : String)
  | startB
  | finishB (i : Nat) (res : QueryOutcome)

/-- One step of the interleaved model. -/
def step (s : SysState) : Ev → SysState
  | .select c => { s with app := { s.app with selected_country := c } }
  | .startB =>
    if s.app.selected_country = "" then s
    else { s with pending := s.pending ++ [s.app.selected_country] }
  | .finishB i res =>
    match s.pending[i]? with
    | none => s
    | some c => { app := commitB res c s.app, pending := s.pending.eraseIdx i }

/-- Run a sequence of events from a system state. -/
def run (s : SysState) (evs : List Ev) : SysState :=
  evs.foldl step s

/-- A two-country dataset used as concrete input in witnesses and
counterexamples. -/
def dsAB : List CityRecord :=
  [{ name := "Acity", country := "A", population := 100, latitude := 0, longitude := 0 },
   { name := "Bcity", country := "B", population := 200, latitude := 0, longitude := 0 }]

/-- A dataset whose countries are Canada, Japan and USA, matching the
scenario of the specification. -/
def dsUSA : List CityRecord :=
  [{ name := "Tokyo", country := "Japan", population := 37000000, latitude := 35, longitude := 139 },
   { name := "New York", country := "USA", population := 8000000, latitude := 40, longitude := -74 },
   { name := "Toronto", country := "Canada", population := 2800000, latitude := 43, longitude := -79 },
   { name := "Los Angeles", country := "USA", population := 3900000, latitude := 34, longitude := -118 }]

/-- A concrete reactive state with country A selected. -/
def stA : AppState :=
  { all_countries := ["A", "B"], selected_country := "A", data_df := topCitiesFor dsAB "A" 10 }

example : listCountries dsAB = ["A", "B"] := by decide
example : listCountries dsUSA = ["Canada", "Japan", "USA"] := by decide
example : topCitiesFor dsAB "A" 10 =
    [{ name := "Acity", country := "A", population := 100, latitude := 0, longitude := 0 }] := by
  decide

theorem step_keeps_all_countries (s : SysState) (e : Ev) :
    (step s e).app.all_countries = s.app.all_countries := by
  cases e with
  | select c => rfl
  | startB =>
    simp only [step]
    split <;> rfl
  | finishB i res =>
    simp only [step]
    cases h : s.pending[i]? with
    | none => simp [h]
    | some c => cases res <;> simp [h, commitB]

/-- Claim C3: listCountries returns a sequence that is lexicographically
sorted ascending, contains the country value of every record present in the
dataset, and has no duplicates. -/
theorem listCountries_sorted_complete_nodup (ds : List CityRecord) :
    (listCountries ds).Sorted strLe ∧ (listCountries ds).Nodup ∧
      ∀ r ∈ ds, r.country ∈ listCountries ds := by
  refine ⟨List.sorted_insertionSort strLe _, ?_, ?_⟩
  · exact ((List.perm_insertionSort strLe _).nodup_iff).mpr (List.nodup_dedup _)
  · intro r hr
    exact ((List.perm_insertionSort strLe _).mem_iff).mpr
      (List.mem_dedup.mpr (List.mem_map.mpr ⟨r, hr, rfl⟩))

/-- Claim C2: for a country of the country list, every row of topCitiesFor
has that country, the rows are sorted by population descending, and at most
limit rows are returned. -/
theorem topCitiesFor_matches_sorted_bounded (ds : List CityRecord) (limit : Nat) (c : String)
    (_hc : c ∈ listCountries ds) :
    (∀ r ∈ topCitiesFor ds c limit, r.country = c) ∧
      (topCitiesFor ds c limit).Sorted popGE ∧
      (topCitiesFor ds c limit).length ≤ limit := by
  refine ⟨?_, ?_, List.length_take_le _ _⟩
  · intro r hr
    have h1 : r ∈ List.insertionSort popGE (ds.filter (fun r => decide (r.country = c))) :=
      List.mem_of_mem_take hr
    have h2 := ((List.perm_insertionSort popGE _).mem_iff).mp h1
    exact of_decide_eq_true (List.mem_filter.mp h2).2
  · exact List.Pairwise.sublist (List.take_sublist _ _) (List.sorted_insertionSort popGE _)

/-- Witness for C2 at the concrete dataset dsAB and country A. -/
theorem topCitiesFor_matches_sorted_bounded_witness :
    (∀ r ∈ topCitiesFor dsAB "A" 10, r.country = "A") ∧
      (topCitiesFor dsAB "A" 10).Sorted popGE ∧
      (topCitiesFor dsAB "A" 10).length ≤ 10 :=
  topCitiesFor_matches_sorted_bounded dsAB 10 "A" (by decide)

/-- Claim C4: when the stage-A query succeeds and no country was selected
before, the country list is published and the selection becomes USA when the
list contains USA, else the first element of the list, else stays empty. -/
theorem load_country_list_default_selection (ds : List CityRecord) (a : AppState)
    (h : a.selected_country = "") :
    (load_country_list (.ok ds) a).all_countries = listCountries ds ∧
      (load_country_list (.ok ds) a).selected_country =
        (if "USA" ∈ listCountries ds then "USA" else (listCountries ds).headD "") := by
  unfold load_country_list
  by_cases hUSA : "USA" ∈ listCountries ds
  · simp [hUSA]
  · by_cases hne : listCountries ds = []
    · simp [hUSA, hne, h]
    · simp [hUSA, hne]

/-- Witness for C4 at the concrete dataset dsUSA, whose country list contains
USA, from the initial state. -/
theorem load_country_list_default_selection_witness :
    (load_country_list (.ok dsUSA) initState).all_countries = listCountries dsUSA ∧
      (load_country_list (.ok dsUSA) initState).selected_country =
        (if "USA" ∈ listCountries dsUSA then "USA" else (listCountries dsUSA).headD "") :=
  load_country_list_default_selection dsUSA initState rfl

/-- Claim C5: a stage-B run with an empty selected country changes nothing:
the serialized effect returns the state unchanged, and in the interleaved
model a start event issues no query. -/
theorem load_filtered_data_empty_short_circuit :
    (∀ (res : QueryOutcome) (a : AppState), a.selected_country = "" →
        load_filtered_data res a = a) ∧
      ∀ s : SysState, s.app.selected_country = "" → step s Ev.startB = s := by
  constructor
  · intro res a h
    unfold load_filtered_data
    simp [h]
  · intro s h
    unfold step
    simp [h]

/-- Claim C6: when the stage-B query raises, data_df is reset to the empty
frame and nothing else changes; the effect is a total function, so no
exception propagates. -/
theorem load_filtered_data_failure_resets (a : AppState) (h : a.selected_country ≠ "") :
    load_filtered_data (.error ()) a = { a with data_df := [] } := by
  unfold load_filtered_data
  simp [h]

/-- Witness for C6 at the concrete state stA. -/
theorem load_filtered_data_failure_resets_witness :
    load_filtered_data (.error ()) stA = { stA with data_df := [] } :=
  load_filtered_data_failure_resets stA (by decide)

/-- Claim C7: when the stage-A query raises, the handler only logs: the state
is returned unchanged (no exception propagates, the effect being total), so
from the initial state the country list stays empty, the selection stays
unassigned, and the page shows the waiting-for-country-list indicator. -/
theorem load_country_list_failure_no_change :
    (∀ a : AppState, load_country_list (.error ()) a = a) ∧
      (load_country_list (.error ()) initState).all_countries = [] ∧
      (load_country_list (.error ()) initState).selected_country = "" ∧
      (Page (load_country_list (.error ()) initState)).body = Body.waitingCountryList := by
  exact ⟨fun a => rfl, rfl, rfl, by decide⟩

/-- Claim C9: the page renders the dashboard (map, chart, table) exactly when
a country is selected and data_df is non-empty; with a selection but an empty
data_df it shows the loading indicator; with no selection it shows the
waiting-for-country-list indicator; and the selector is bound to the country
list and the selection.  Page itself is a pure function of the state. -/
theorem Page_rendering_rule (s : AppState) :
    ((Page s).body = Body.dashboard s.selected_country s.data_df ↔
        s.selected_country ≠ "" ∧ s.data_df ≠ []) ∧
      (s.selected_country ≠ "" → s.data_df = [] →
        (Page s).body = Body.loadingData s.selected_country) ∧
      (s.selected_country = "" → (Page s).body = Body.waitingCountryList) ∧
      (Page s).selectorOptions = s.all_countries ∧
      (Page s).selectorValue = s.selected_country := by
  unfold Page
  by_cases h1 : s.selected_country = "" <;>
    by_cases h2 : s.data_df = ([] : List CityRecord) <;> simp [h1, h2]

/-- Claim C10: a stage-B run never changes the country list or the selection
(its only write is data_df), and a stage-A run never changes data_df. -/
theorem effects_frame (res res2 : QueryOutcome) (a : AppState) :
    (load_filtered_data res a).all_countries = a.all_countries ∧
      (load_filtered_data res a).selected_country = a.selected_country ∧
      (load_country_list res2 a).data_df = a.data_df := by
  refine ⟨?_, ?_, ?_⟩
  · unfold load_filtered_data
    by_cases h : a.selected_country = ""
    · simp [h]
    · cases res <;> simp [h]
  · unfold load_filtered_data
    by_cases h : a.selected_country = ""
    · simp [h]
    · cases res <;> simp [h]
  · unfold load_country_list
    cases res2 with
    | error e => rfl
    | ok ds =>
      by_cases hUSA : "USA" ∈ listCountries ds
      · simp [hUSA]
      · by_cases hne : listCountries ds = [] <;> simp [hUSA, hne]

/-- Claim C8: the country list is written by the one-time stage-A
initialization (on success it publishes the distinct-country query result)
and no later event of the interleaved system — user selection, stage-B start
or stage-B completion — ever changes it. -/
theorem all_countries_written_once :
    (∀ (ds : List CityRecord) (a : AppState),
        (load_country_list (.ok ds) a).all_countries = listCountries ds) ∧
      ∀ (s : SysState) (evs : List Ev),
        (run s evs).app.all_countries = s.app.all_countries := by
  constructor
  · intro ds a
    unfold load_country_list
    by_cases hUSA : "USA" ∈ listCountries ds
    · simp [hUSA]
    · by_cases hne : listCountries ds = [] <;> simp [hUSA, hne]
  · intro s evs
    induction evs generalizing s with
    | nil => rfl
    | cons e evs ih =>
      show (run (step s e) evs).app.all_countries = s.app.all_countries
      rw [ih (step s e), step_keeps_all_countries]

/-- The interleaved trace of claim C1: the user selects A, the stage-B run
for A starts, the user then selects B and the run for B starts; the query for
B completes first, the query for A completes last. -/
def staleTrace : List Ev :=
  [Ev.select "A", Ev.startB, Ev.select "B", Ev.startB,
   Ev.finishB 1 (.ok dsAB), Ev.finishB 0 (.ok dsAB)]

/-- Counterexample to claim C1: in the trace staleTrace the selection changes
from A to B before the query issued for A completes, both stage-B runs have
completed (no query remains in flight), yet the committed data_df is the
result for the superseded country A and not the result for the current
country B: the commit phase (app.py lines 74-75) writes the result for the
captured name unconditionally, with no staleness check. -/
theorem stale_result_suppression_counterexample :
    (run initSys staleTrace).app.selected_country = "B" ∧
      (run initSys staleTrace).pending = [] ∧
      (run initSys staleTrace).app.data_df = topCitiesFor dsAB "A" 10 ∧
      (run initSys staleTrace).app.data_df ≠ topCitiesFor dsAB "B" 10 := by
  decide

/-- Amended claim C1: the committed data_df after a stage-B completion is the
query result for the country name captured by that run — commit order
decides, not selection order.  The result reflects the current country B
exactly when the run that captured B commits last; a stale run committing
later overwrites it. -/
theorem stageB_last_commit_wins (s : SysState) (evs : List Ev) (i : Nat) (c : String)
    (ds : List CityRecord) (h : (run s evs).pending[i]? = some c) :
    (run s (evs ++ [Ev.finishB i (.ok ds)])).app.data_df = topCitiesFor ds c 10 := by
  unfold run
  rw [List.foldl_append]
  show (step (run s evs) (Ev.finishB i (.ok ds))).app.data_df = topCitiesFor ds c 10
  unfold step
  simp [h, commitB]

/-- Witness for the amended claim C1: after the first five events of
staleTrace the in-flight query at index 0 captured country A, and its
completion commits the result for A. -/
theorem stageB_last_commit_wins_witness :
    (run initSys ([Ev.select "A", Ev.startB, Ev.select "B", Ev.startB,
        Ev.finishB 1 (.ok dsAB)] ++ [Ev.finishB 0 (.ok dsAB)])).app.data_df =
      topCitiesFor dsAB "A" 10 :=
  stageB_last_commit_wins initSys
    [Ev.select "A", Ev.startB, Ev.select "B", Ev.startB, Ev.finishB 1 (.ok dsAB)]
    0 "A" dsAB (by decide)
